import Mathlib

/-!
# Verification of the providerkit provider resolution and invocation engine

Shallow embedding of `src/providerkit` (helpers.py and the kit mixins) in
Lean 4, together with theorems settling the specification claims about the
loader, the readiness checkers, and the try-all / try-first invocation
strategies.

Python dictionaries are modelled as insertion-ordered association lists,
Python exceptions as an explicit error type threaded through `Except`, and
the process environment (environment variables, installed-package probes)
as an explicit record of functions.
-/

namespace ProviderKit

/-- The Python values the engine manipulates: `None`, strings, integers and
booleans (dictionaries appear only as configuration mappings and are kept as
a separate association-list type). -/
inductive PyVal where
  | none
  | str (s : String)
  | int (n : Int)
  | bool (b : Bool)
deriving DecidableEq, Repr

/-- Python truthiness for the modelled values (`if not value`). -/
def PyVal.truthy : PyVal → Bool
  | .none => false
  | .str s => s ≠ ""
  | .int n => n ≠ 0
  | .bool b => b

/-- Models `value is None`. -/
def PyVal.isNone : PyVal → Bool
  | .none => true
  | _ => false

/-- Insertion-ordered association list standing for a Python `dict`. -/
abbrev Dict (α : Type) := List (String × α)

/-- Models `d[k]` / `d.get(k)` as an `Option`: the first binding of `k`. -/
def Dict.lookup {α : Type} (d : Dict α) (k : String) : Option α :=
  match d with
  | [] => Option.none
  | (k', v) :: rest => if k' = k then some v else Dict.lookup rest k

/-- Models `k in d`. -/
def Dict.hasKey {α : Type} (d : Dict α) (k : String) : Bool :=
  match d with
  | [] => false
  | (k', _) :: rest => k' = k || Dict.hasKey rest k

/-- Models `d[k] = v`: replace the existing binding in place, else append (Python
dict assignment keeps the original key position). -/
def Dict.insert {α : Type} (d : Dict α) (k : String) (v : α) : Dict α :=
  match d with
  | [] => [(k, v)]
  | (k', v') :: rest =>
      if k' = k then (k, v) :: rest else (k', v') :: Dict.insert rest k v

/-- Models `d.pop(k, _)`: remove every binding of `k`. -/
def Dict.erase {α : Type} (d : Dict α) (k : String) : Dict α :=
  d.filter (fun p => p.1 ≠ k)

/-- Models `d1.update(d2)`: assign every binding of `d2` into `d1`, in order. -/
def Dict.update {α : Type} (d1 d2 : Dict α) : Dict α :=
  d2.foldl (fun acc p => Dict.insert acc p.1 p.2) d1

/-- The key list of a dict. -/
def Dict.keys {α : Type} (d : Dict α) : List String :=
  d.map Prod.fst

/-- Models `all(d.values())`. -/
def Dict.allValues (d : Dict Bool) : Bool :=
  d.all (fun p => p.2)

/-! ### Character-level string primitives

The Python string operations the engine uses (`str.split` on a one-character
separator, `str.lower`, `str.upper`, single-character `str.replace`,
`str.startswith`, substring containment) are modelled by structural
recursion over character lists so that they evaluate on concrete inputs. -/

/-- Accumulating loop of `str.split(sep)` for a one-character separator. -/
def splitOnCharGo (sep : Char) : List Char → List Char → List String
  | [], acc => [String.mk acc.reverse]
  | c :: rest, acc =>
    if c = sep then String.mk acc.reverse :: splitOnCharGo sep rest []
    else splitOnCharGo sep rest (c :: acc)

/-- Models `s.split(sep)` for a one-character separator. -/
def splitOnChar (sep : Char) (s : String) : List String :=
  splitOnCharGo sep s.data []

/-- Models `s.lower()` (ASCII, as used by the provider names here). -/
def pyLower (s : String) : String :=
  String.mk (s.data.map Char.toLower)

/-- Models `s.upper()` (ASCII). -/
def pyUpper (s : String) : String :=
  String.mk (s.data.map Char.toUpper)

/-- Models `s.replace(src, dst)` for one-character arguments. -/
def pyReplaceChar (src dst : Char) (s : String) : String :=
  String.mk (s.data.map (fun c => if c = src then dst else c))

/-- Models `s.startswith("_")`. -/
def startsWithUnderscore (s : String) : Bool :=
  match s.data with
  | [] => false
  | c :: _ => c = '_'

/-- Prefix test on character lists. -/
def charsPrefixOf : List Char → List Char → Bool
  | [], _ => true
  | _ :: _, [] => false
  | a :: as, b :: bs => a = b && charsPrefixOf as bs

/-- Substring containment on character lists. -/
def charsContains (sub : List Char) : List Char → Bool
  | [] => sub.isEmpty
  | c :: rest => charsPrefixOf sub (c :: rest) || charsContains sub rest

/-- The process-level environment the engine reads: `os.getenv` and the
`importlib.util.find_spec`-based installed-package probe. -/
structure Env where
  getenv : String → Option String
  installed : String → Bool

/-! ## The provider class and instance model

A provider class (a Python subclass of `ProviderBase`) is described by its
class-level attributes; a constructed provider instance carries the
instance-level attributes written by `ProviderBase.__init__` and the three
lazily populated readiness caches. -/

/-- Result of calling a callable attribute: a normal return or a raised
exception (stringified message). -/
inductive CallResult where
  | ok (v : PyVal)
  | exn (msg : String)
deriving DecidableEq, Repr

/-- What `getattr(obj, name, None)` yields for a (potential) service/method
attribute: absent (or `None`), a non-callable value, or a callable whose
invocation behaves as recorded; `isType` marks class objects, which are
callable but fail `is_service_implemented`. -/
inductive Attr where
  | missing
  | nonCallable (v : PyVal)
  | callableFn (isType : Bool) (result : CallResult)

/-- Class-level attributes of a provider type.  `name?`/`display_name?` are
`Option` because `ProviderBase` only annotates these fields: a subclass that
does not assign them has no such class attribute and `getattr` raises
`AttributeError`.  `configPfx` models the `config_prefix` class attribute. -/
structure ProviderClassDef where
  pyName : String
  isProviderSubclass : Bool
  name? : Option PyVal
  display_name? : Option PyVal
  config_keys : List String
  configPfx : String
  config_defaults : Dict PyVal
  required_packages : List String
  services : List String
  attrs : String → Attr
  provider_can_be_used : Option PyVal

/-- A constructed provider instance.  `_config` is `Option` because the
attribute is only created when some code path first writes it
(`hasattr(self, "_config")` checks model the `none` case). -/
structure Instance where
  cls : ProviderClassDef
  name : PyVal
  display_name : PyVal
  _config : Option (Dict PyVal)
  configKeysCache : Option (Dict Bool)
  packagesCache : Option (Dict Bool)
  servicesCache : Option (Dict Bool)
  extraAttrs : Dict PyVal

/-! ## ConfigMixin (src/providerkit/kit/config.py) -/

/-- Models `ConfigMixin._filter_config`: keep only declared keys, or copy the whole
mapping when no keys are declared. -/
def filter_config (config_keys : List String) (config : Dict PyVal) : Dict PyVal :=
  if config_keys.isEmpty then config
  else config_keys.foldl
    (fun acc key =>
      match Dict.lookup config key with
      | some v => Dict.insert acc key v
      | Option.none => acc)
    []

/-- Models `getattr(self, "_config", {})`. -/
def Instance.configDict (p : Instance) : Dict PyVal :=
  p._config.getD []

/-- Models `ConfigMixin._init_config` (only reached with a dict or `None`). -/
def init_config (p : Instance) (config : Option (Dict PyVal)) : Instance :=
  let p := if p._config.isNone then { p with _config := some [] } else p
  match config with
  | some c =>
      { p with
        _config := some (filter_config p.cls.config_keys c)
        configKeysCache := Option.none }
  | Option.none => p

/-- Models `config.get(key)`: a missing key reads as `None`. -/
def configGet (d : Dict PyVal) (key : String) : PyVal :=
  (Dict.lookup d key).getD PyVal.none

/-- The `{PROVIDER_NAME}` part of the environment-variable names:
provider name upper-cased with `-` replaced by `_`. -/
def providerEnvName (p : Instance) : String :=
  pyReplaceChar '-' '_' (pyUpper (match p.name with | .str s => s | _ => ""))

/-- Models `ConfigMixin._get_config_or_env`: config dict, then the layered
environment fallback chain, then the default. -/
def get_config_or_env (env : Env) (p : Instance) (key : String) (default : PyVal) : PyVal :=
  let value := configGet p.configDict key
  if !value.isNone then value
  else
    let providerName := providerEnvName p
    let keyUpper := pyUpper key
    let step1 : Option String :=
      if p.cls.configPfx ≠ "" then
        env.getenv (p.cls.configPfx ++ "_" ++ providerName ++ "_" ++ keyUpper)
      else Option.none
    match step1 with
    | some s => .str s
    | Option.none =>
      match env.getenv (providerName ++ "_" ++ keyUpper) with
      | some s => .str s
      | Option.none =>
        match env.getenv keyUpper with
        | some s => .str s
        | Option.none => default

/-- The presence status of the declared config keys against a given config
dict (the body of `check_config_keys`, shared by the cached and the
explicit-argument paths). -/
def configKeysStatus (env : Env) (p : Instance) (cfg : Dict PyVal) : Dict Bool :=
  p.cls.config_keys.foldl
    (fun status key =>
      let present := Dict.hasKey cfg key
      let present := present || Dict.hasKey p.cls.config_defaults key
      let present := present || !(get_config_or_env env p key PyVal.none).isNone
      Dict.insert status key present)
    []

/-- Models `ConfigMixin.check_config_keys`: with an explicit config argument the
status is computed fresh; otherwise the cached status is returned when
present, else computed from the current config and cached. -/
def check_config_keys (env : Env) (p : Instance) (cfg? : Option (Dict PyVal)) :
    Dict Bool × Instance :=
  match cfg? with
  | some cfg => (configKeysStatus env p cfg, p)
  | Option.none =>
    match p.configKeysCache with
    | some cache => (cache, p)
    | Option.none =>
      let status := configKeysStatus env p p.configDict
      (status, { p with configKeysCache := some status })

/-- Models `ConfigMixin.clear_config_cache`. -/
def clear_config_cache (p : Instance) : Instance :=
  { p with configKeysCache := Option.none }

/-- Models `ConfigMixin.configure`: filter, then merge or replace, then clear the
config-keys cache. -/
def configure (p : Instance) (config : Dict PyVal) (replace : Bool) : Instance :=
  let p := if p._config.isNone then { p with _config := some [] } else p
  let filtered := filter_config p.cls.config_keys config
  let newConfig := if replace then filtered else Dict.update p.configDict filtered
  clear_config_cache { p with _config := some newConfig }

/-- Models `ConfigMixin.is_config_ready`. -/
def is_config_ready (env : Env) (p : Instance) (cfg? : Option (Dict PyVal)) :
    Bool × Instance :=
  let (status, p) := check_config_keys env p cfg?
  (status.allValues, p)

/-- Models `ConfigMixin.get_missing_config_keys`. -/
def get_missing_config_keys (env : Env) (p : Instance) (cfg? : Option (Dict PyVal)) :
    List String × Instance :=
  let (status, p) := check_config_keys env p cfg?
  ((status.filter (fun e => !e.2)).map Prod.fst, p)

/-! ## PackageMixin (src/providerkit/kit/package.py) -/

/-- Models `PackageMixin.is_package_installed`: probe the `-`/`.`-normalized name,
falling back to the raw name. -/
def is_package_installed (env : Env) (package_name : String) : Bool :=
  let normalized := pyReplaceChar '.' '_' (pyReplaceChar '-' '_' package_name)
  env.installed normalized || env.installed package_name

/-- The freshly computed package status mapping (the body of
`check_packages` when the cache is empty). -/
def packagesStatus (env : Env) (p : Instance) : Dict Bool :=
  p.cls.required_packages.foldl
    (fun status pkg => Dict.insert status pkg (is_package_installed env pkg))
    []

/-- Models `PackageMixin.check_packages`: cached mapping, computed on first use. -/
def check_packages (env : Env) (p : Instance) : Dict Bool × Instance :=
  match p.packagesCache with
  | some cache => (cache, p)
  | Option.none =>
    let status := packagesStatus env p
    (status, { p with packagesCache := some status })

/-- Models `PackageMixin.clear_packages_cache`. -/
def clear_packages_cache (p : Instance) : Instance :=
  { p with packagesCache := Option.none }

/-- Models `PackageMixin.are_packages_installed`. -/
def are_packages_installed (env : Env) (p : Instance) : Bool × Instance :=
  let (status, p) := check_packages env p
  (status.allValues, p)

/-- Models `PackageMixin.get_missing_packages`. -/
def get_missing_packages (env : Env) (p : Instance) : List String × Instance :=
  let (status, p) := check_packages env p
  ((status.filter (fun e => !e.2)).map Prod.fst, p)

/-! ## ServiceMixin (src/providerkit/kit/service.py) -/

/-- Models `getattr(provider, name, None)` for a method/service attribute:
instance attributes written by `__init__`'s kwargs loop (plain values,
never callable) shadow the class attributes. -/
def Instance.getAttr (p : Instance) (name : String) : Attr :=
  match Dict.lookup p.extraAttrs name with
  | some PyVal.none => .missing
  | some v => .nonCallable v
  | Option.none => p.cls.attrs name

/-- Models `ServiceMixin.is_service_implemented`: the attribute is callable and is
not itself a class. -/
def is_service_implemented (p : Instance) (service_name : String) : Bool :=
  match p.getAttr service_name with
  | .callableFn isType _ => !isType
  | _ => false

/-- The freshly computed service status mapping. -/
def servicesStatus (p : Instance) : Dict Bool :=
  p.cls.services.foldl
    (fun status service => Dict.insert status service (is_service_implemented p service))
    []

/-- Models `ServiceMixin.check_services`: cached mapping, computed on first use. -/
def check_services (p : Instance) : Dict Bool × Instance :=
  match p.servicesCache with
  | some cache => (cache, p)
  | Option.none =>
    let status := servicesStatus p
    (status, { p with servicesCache := some status })

/-- Models `ServiceMixin.clear_services_cache`. -/
def clear_services_cache (p : Instance) : Instance :=
  { p with servicesCache := Option.none }

/-- Models `ServiceMixin.are_services_implemented`. -/
def are_services_implemented (p : Instance) : Bool × Instance :=
  let (status, p) := check_services p
  (status.allValues, p)

/-- Models `ServiceMixin.get_missing_services`. -/
def get_missing_services (p : Instance) : List String × Instance :=
  let (status, p) := check_services p
  ((status.filter (fun e => !e.2)).map Prod.fst, p)

/-! ## ProviderBase.__init__ (src/providerkit/kit/__init__.py) -/

/-- The Python exceptions the engine raises or catches. -/
inductive PyErr where
  | importError
  | attributeError
  | valueError (msg : String)
  | typeError
  | runtimeError (msg : String)
deriving DecidableEq, Repr

/-- Models `kwargs.pop(field, getattr(self, field))` for a mandatory base field:
the `getattr` default is evaluated eagerly, so a class without the
attribute raises `AttributeError` even when the kwarg is supplied. -/
def popMandatory (kwargs : Dict PyVal) (classAttr : Option PyVal) (field : String) :
    Except PyErr (PyVal × Dict PyVal) :=
  match classAttr with
  | Option.none => .error .attributeError
  | some dflt =>
    match Dict.lookup kwargs field with
    | some v => .ok (v, Dict.erase kwargs field)
    | Option.none => .ok (dflt, kwargs)

/-- Shape of the `config` keyword argument as seen by `__init__`:
absent from kwargs, explicitly `None`, a dict, or some other value
(the last goes through `_init_config(None)`). -/
inductive ConfigKw where
  | absent
  | noneVal
  | dict (d : Dict PyVal)
  | other (v : PyVal)

/-- Models `ProviderBase.__init__`: pop/validate the mandatory base fields
(`name`, `display_name`), handle the `config` kwarg, then store the
remaining kwargs as plain attributes. -/
def providerInit (cls : ProviderClassDef) (kwargs : Dict PyVal) (configKw : ConfigKw) :
    Except PyErr Instance :=
  match popMandatory kwargs cls.name? "name" with
  | .error e => .error e
  | .ok (nameV, kwargs1) =>
    if !nameV.truthy then .error (.valueError "name is required and cannot be empty")
    else
      match popMandatory kwargs1 cls.display_name? "display_name" with
      | .error e => .error e
      | .ok (dispV, kwargs2) =>
        if !dispV.truthy then
          .error (.valueError "display_name is required and cannot be empty")
        else
          let inst : Instance :=
            { cls := cls
              name := nameV
              display_name := dispV
              _config := Option.none
              configKeysCache := Option.none
              packagesCache := Option.none
              servicesCache := Option.none
              extraAttrs := kwargs2 }
          match configKw with
          | .absent => .ok inst
          | .noneVal => .ok inst
          | .dict d => .ok (init_config inst (some d))
          | .other _ => .ok (init_config inst Option.none)

/-! ## Declarative-config loader (`_load_providers_from_config`,
src/providerkit/helpers.py) -/

/-- A member of an imported module as seen by `getattr`: either a class
(with its full class-level description) or some non-class value, on which
`issubclass` raises `TypeError`. -/
inductive ModuleMember where
  | cls (c : ProviderClassDef)
  | notAClass

/-- The import machinery: a module path resolves to its member table, or to
nothing (`import_module` raises `ImportError`). -/
structure ImportEnv where
  resolve : String → Option (Dict ModuleMember)

/-- One record of the declarative configuration list: the `class` dotted
path (`""` when the key is missing), the `config` value
(`provider_config.get("config", {})`), and the extra `kwargs` mapping. -/
structure ConfigRecord where
  classPath : String
  config : ConfigKw
  kwargs : Dict PyVal

/-- Exceptions swallowed per-record by `_load_providers_from_config`
(`except (ImportError, AttributeError, TypeError)`). -/
def PyErr.caughtByConfigLoader : PyErr → Bool
  | .importError => true
  | .attributeError => true
  | .typeError => true
  | _ => false

/-- Process a single record of the declarative list: resolve the dotted
path, check the provider contract, construct, and derive the registry key.
`.ok none` is a silent skip (`continue`); errors are classified by the
caller. -/
def loadOneRecord (ienv : ImportEnv) (rec : ConfigRecord) :
    Except PyErr (Option (String × Instance)) :=
  if rec.classPath = "" then .ok Option.none
  else
    let parts := splitOnChar '.' rec.classPath
    let modulePath := String.intercalate "." parts.dropLast
    let className := parts.getLastD ""
    if modulePath = "" then .error (.valueError "Empty module name")
    else
      match ienv.resolve modulePath with
      | Option.none => .error .importError
      | some members =>
        match Dict.lookup members className with
        | Option.none => .error .attributeError
        | some .notAClass => .error .typeError
        | some (.cls cls) =>
          if !cls.isProviderSubclass then .ok Option.none
          else if Dict.hasKey rec.kwargs "config" then .error .typeError
          else
            match providerInit cls rec.kwargs rec.config with
            | .error e => .error e
            | .ok inst =>
              match inst.name with
              | .str s =>
                let providerName := pyLower s
                if providerName ≠ "" then .ok (some (providerName, inst))
                else .ok Option.none
              | _ => .error .attributeError

/-- The record-processing loop of `_load_providers_from_config`: swallow
only the exceptions named in the `except` clause (`continue`); any other
exception aborts the whole load. -/
def loadConfigGo (ienv : ImportEnv) :
    List ConfigRecord → Dict Instance → Except PyErr (Dict Instance)
  | [], acc => .ok acc
  | rec :: rest, acc =>
    match loadOneRecord ienv rec with
    | .ok (some (n, inst)) => loadConfigGo ienv rest (Dict.insert acc n inst)
    | .ok Option.none => loadConfigGo ienv rest acc
    | .error e =>
        if e.caughtByConfigLoader then loadConfigGo ienv rest acc else .error e

/-- Models `_load_providers_from_config`. -/
def load_providers_from_config (ienv : ImportEnv) (records : List ConfigRecord) :
    Except PyErr (Dict Instance) :=
  loadConfigGo ienv records []

/-! ## Invokers (`try_providers`, `try_providers_first`,
src/providerkit/helpers.py) -/

/-- One entry of the per-provider result mapping: `{"result": ...}`,
`{"error": ...}` or `{"errors": [...]}`, each carrying the provider's
display name. -/
inductive ResultEntry where
  | result (v : PyVal) (provider : PyVal)
  | error (msg : String) (provider : PyVal)
  | errors (es : List String) (provider : PyVal)
deriving Repr

/-- Models `hasattr(provider, "provider_can_be_used") and
provider.provider_can_be_used is False`. -/
def canBeUsedIsFalse (p : Instance) : Bool :=
  match Dict.lookup p.extraAttrs "provider_can_be_used" with
  | some v => v = PyVal.bool false
  | Option.none =>
    match p.cls.provider_can_be_used with
    | some v => v = PyVal.bool false
    | Option.none => false

/-- Number of declared services the provider implements (the
`implemented_count` expression). -/
def implementedCount (p : Instance) : Nat :=
  (p.cls.services.filter (fun s => is_service_implemented p s)).length

/-- The readiness error list of the try-all loop: package check, config
check, then implementation of the target method only. -/
def tryAllErrors (env : Env) (command : String) (p : Instance) : List String :=
  let (pkgsOk, p) := are_packages_installed env p
  let errs : List String :=
    if !pkgsOk then
      let (missing, _) := get_missing_packages env p
      if !missing.isEmpty then ["Packages missing: " ++ String.intercalate ", " missing]
      else ["package_missing"]
    else []
  let (cfgOk, p) := is_config_ready env p Option.none
  let errs :=
    if !cfgOk then
      let (missing, _) := get_missing_config_keys env p Option.none
      errs ++ (if !missing.isEmpty then ["Config missing: " ++ String.intercalate ", " missing]
               else ["config_missing"])
    else errs
  let errs :=
    if !is_service_implemented p command then
      let services := p.cls.services
      if !services.isEmpty then
        errs ++ ["Service missing: " ++ command ++ " (" ++ toString (implementedCount p)
                 ++ "/" ++ toString services.length ++ " services implemented)"]
      else errs ++ ["Service missing: " ++ command]
    else errs
  errs

/-- The readiness error list of the try-first loop: package check, config
check, then FULL service readiness (`are_services_implemented`). -/
def tryFirstErrors (env : Env) (p : Instance) : List String :=
  let (pkgsOk, p) := are_packages_installed env p
  let errs : List String :=
    if !pkgsOk then
      let (missing, _) := get_missing_packages env p
      if !missing.isEmpty then ["Packages missing: " ++ String.intercalate ", " missing]
      else ["package_missing"]
    else []
  let (cfgOk, p) := is_config_ready env p Option.none
  let errs :=
    if !cfgOk then
      let (missing, _) := get_missing_config_keys env p Option.none
      errs ++ (if !missing.isEmpty then ["Config missing: " ++ String.intercalate ", " missing]
               else ["config_missing"])
    else errs
  let errs :=
    let (svcOk, p) := are_services_implemented p
    if !svcOk then
      let services := p.cls.services
      if !services.isEmpty then
        let (missingS, _) := get_missing_services p
        let counts := "(" ++ toString (implementedCount p) ++ "/"
                      ++ toString services.length ++ " services implemented)"
        if !missingS.isEmpty then
          errs ++ ["Services missing: " ++ String.intercalate ", " missingS ++ " " ++ counts]
        else errs ++ ["Services missing " ++ counts]
      else errs ++ ["service_missing"]
    else errs
  errs

/-- The aggregated "method not found in any provider" message. -/
def methodNotFoundMsg (command : String) (without : List String) : String :=
  let base := "Method '" ++ command ++ "' not found in any provider."
  if without.length ≤ 5 then
    base ++ " Checked providers: " ++ String.intercalate ", " without
  else
    base ++ " Checked " ++ toString without.length
         ++ " providers (none implement '" ++ command ++ "')"

/-- One step of the try-all loop, accumulating the result mapping, the
providers lacking the method, and (instrumentation) the names of providers
whose method actually got invoked. -/
def tryAllStep (env : Env) (command : String)
    (acc : Dict ResultEntry × List String × List String)
    (entry : String × Instance) :
    Dict ResultEntry × List String × List String :=
  let (results, without, trace) := acc
  let (name, p) := entry
  if canBeUsedIsFalse p then acc
  else
    let errs := tryAllErrors env command p
    if !errs.isEmpty then
      (Dict.insert results name (.errors errs p.display_name), without, trace)
    else
      match p.getAttr command with
      | .missing => (results, without ++ [name], trace)
      | .nonCallable _ => (results, without ++ [name], trace)
      | .callableFn _ (.ok v) =>
          (Dict.insert results name (.result v p.display_name), without, trace ++ [name])
      | .callableFn _ (.exn m) =>
          (Dict.insert results name (.error m p.display_name), without, trace ++ [name])

/-- The try-all loop over the whole provider mapping. -/
def tryAllRun (env : Env) (command : String) (providers : Dict Instance) :
    Dict ResultEntry × List String × List String :=
  providers.foldl (tryAllStep env command) ([], [], [])

/-- Return value of `try_providers`: the raw mapping, a formatted rendering
of it, or the aggregated method-not-found report (dict or string form). -/
inductive TryAllReturn where
  | mapping (results : Dict ResultEntry)
  | formatted (results : Dict ResultEntry) (fmt : String)
  | methodNotFoundDict (msg : String)
  | methodNotFoundStr (msg : String)

/-- Models `try_providers` (with an already-supplied provider mapping): raise on
an empty collection, run the loop, and aggregate. -/
def try_providers (env : Env) (command : String) (providers : Dict Instance)
    (format? : Option String) : Except PyErr TryAllReturn :=
  if providers.isEmpty then .error (.runtimeError "No providers available")
  else
    let (results, without, _) := tryAllRun env command providers
    if results.isEmpty && !without.isEmpty then
      let msg := methodNotFoundMsg command without
      match format? with
      | some _ => .ok (.methodNotFoundStr msg)
      | Option.none => .ok (.methodNotFoundDict msg)
    else
      match format? with
      | some f => .ok (.formatted results f)
      | Option.none => .ok (.mapping results)

/-- The names of the providers whose target method was invoked during a
try-all run. -/
def tryAllInvoked (env : Env) (command : String) (providers : Dict Instance) :
    List String :=
  (tryAllRun env command providers).2.2

/-- Return value of `try_providers_first`: the first successful raw result,
or a formatted rendering. -/
inductive TryFirstReturn where
  | value (v : PyVal)
  | formatted (results : Dict ResultEntry) (fmt : String)

/-- The try-first loop: stops at the first successful invocation, otherwise
accumulates error entries exactly like try-all (but with full service
readiness). -/
def tryFirstLoop (env : Env) (command : String) (format? : Option String) :
    List (String × Instance) → Dict ResultEntry → List String → List String →
    Option TryFirstReturn × Dict ResultEntry × List String × List String
  | [], results, without, trace => (Option.none, results, without, trace)
  | (name, p) :: rest, results, without, trace =>
    if canBeUsedIsFalse p then tryFirstLoop env command format? rest results without trace
    else
      let errs := tryFirstErrors env p
      if !errs.isEmpty then
        tryFirstLoop env command format? rest
          (Dict.insert results name (.errors errs p.display_name)) without trace
      else
        match p.getAttr command with
        | .missing => tryFirstLoop env command format? rest results (without ++ [name]) trace
        | .nonCallable _ =>
            tryFirstLoop env command format? rest results (without ++ [name]) trace
        | .callableFn _ (.ok v) =>
            let rd := ResultEntry.result v p.display_name
            let results := Dict.insert results name rd
            match format? with
            | some f => (some (.formatted [(name, rd)] f), results, without, trace ++ [name])
            | Option.none => (some (.value v), results, without, trace ++ [name])
        | .callableFn _ (.exn m) =>
            tryFirstLoop env command format? rest
              (Dict.insert results name (.error m p.display_name)) without (trace ++ [name])

/-- Models `try_providers_first` (with an already-supplied provider mapping). -/
def try_providers_first (env : Env) (command : String) (providers : Dict Instance)
    (format? : Option String) : Except PyErr TryFirstReturn :=
  if providers.isEmpty then .error (.runtimeError "No providers available")
  else
    match tryFirstLoop env command format? providers [] [] [] with
    | (some ret, _, _, _) => .ok ret
    | (Option.none, results, without, _) =>
      if results.isEmpty && !without.isEmpty then
        .error (.runtimeError (methodNotFoundMsg command without))
      else
        match format? with
        | some f => .ok (.formatted results f)
        | Option.none =>
            .error (.runtimeError ("Command '" ++ command ++ "' failed on all providers"))

/-- The names of the providers whose target method was invoked during a
try-first run. -/
def tryFirstInvoked (env : Env) (command : String) (providers : Dict Instance)
    (format? : Option String) : List String :=
  (tryFirstLoop env command format? providers [] [] []).2.2.2

/-! ## Directory autodiscovery (`autodiscover_providers`,
`_extract_providers_from_module`, src/providerkit/helpers.py) -/

/-- Models `sub in s` for strings. -/
def containsSub (s sub : String) : Bool :=
  charsContains sub.data s.data

/-- A class found in a scanned module by `inspect.getmembers(module,
inspect.isclass)`: its own `__name__`, whether it is `ProviderBase` itself,
whether it subclasses `ProviderBase`, whether its `__module__` equals the
path the unit was loaded under (defined directly in the unit, not
imported), and its `name` class attribute (absent reads as `""`). -/
structure ModuleClass where
  pyName : String
  isBaseItself : Bool
  subclassOfBase : Bool
  definedHere : Bool
  nameAttr : Option PyVal

/-- Models `_extract_providers_from_module`: keep the classes that are strict
`ProviderBase` subclasses, defined in this unit, and whose class name
contains `"Provider"`; key each by its lower-cased `name` attribute,
skipping empty names.  A non-string `name` attribute makes `.lower()`
raise. -/
def extractGo : List ModuleClass → Dict ModuleClass → Except PyErr (Dict ModuleClass)
  | [], acc => .ok acc
  | c :: rest, acc =>
    if !c.isBaseItself && c.subclassOfBase && c.definedHere
        && containsSub c.pyName "Provider" then
      match c.nameAttr.getD (PyVal.str "") with
      | .str s =>
          if pyLower s ≠ "" then extractGo rest (Dict.insert acc (pyLower s) c)
          else extractGo rest acc
      | _ => .error .attributeError
    else extractGo rest acc

/-- Models `_extract_providers_from_module` as a whole. -/
def extract_providers_from_module (members : List ModuleClass) :
    Except PyErr (Dict ModuleClass) :=
  extractGo members []

/-- A source file met by the directory scan.  Loading is modelled by its
outcome in each mode: `loadedViaImport` is the member list produced by
`importlib.import_module` on the module path built from the base namespace
(members' `definedHere` compares `__module__` against that path), and
`loadedDirect` the member list produced by loading the file standalone
(members' `definedHere` compares against the file stem); `none` means the
load raised and the file is skipped. -/
structure ScanFile where
  fileName : String
  loadedViaImport : Option (List ModuleClass)
  loadedDirect : Option (List ModuleClass)

/-- Models `autodiscover_providers` over the scanned file list.  `base_module?` is
the caller-supplied base namespace and `inferredBase` the result of
`_infer_base_module` (consulted only when no base namespace is given); the
effective base selects the loading mode for every file.  Per-file errors,
including those raised inside extraction, are swallowed. -/
def loadedIn (effectiveBase : Option String) (f : ScanFile) : Option (List ModuleClass) :=
  match effectiveBase with
  | some _ => f.loadedViaImport
  | Option.none => f.loadedDirect

/-- The per-file loop of the scan. -/
def autodiscoverGo (effectiveBase : Option String) (exclude_files : List String) :
    List ScanFile → Dict ModuleClass → Dict ModuleClass
  | [], provs => provs
  | f :: rest, provs =>
    if f.fileName ∈ exclude_files || startsWithUnderscore f.fileName then
      autodiscoverGo effectiveBase exclude_files rest provs
    else
      match loadedIn effectiveBase f with
      | Option.none => autodiscoverGo effectiveBase exclude_files rest provs
      | some members =>
        match extract_providers_from_module members with
        | .ok found =>
            autodiscoverGo effectiveBase exclude_files rest (Dict.update provs found)
        | .error _ => autodiscoverGo effectiveBase exclude_files rest provs

/-- The whole `autodiscover_providers` scan. -/
def autodiscover_providers (files : List ScanFile) (base_module? : Option String)
    (inferredBase : Option String) (exclude_files : List String) : Dict ModuleClass :=
  autodiscoverGo (base_module?.orElse (fun _ => inferredBase)) exclude_files files []

/-! ## Claim C5: layered config/environment resolution precedence -/

/-- The resolution chain as the specification words it: a value stored in
the instance config dict takes priority over every environment lookup;
otherwise the prefixed variable `{PREFIX}_{PROVIDER_NAME}_{KEY}` (consulted
only when a prefix is configured), then `{PROVIDER_NAME}_{KEY}`, then the
bare upper-cased `{KEY}`, with the first non-absent value winning; else the
default. -/
def resolutionChainSpec (env : Env) (p : Instance) (key : String) (default : PyVal) : PyVal :=
  let fromConfig := configGet p.configDict key
  if !fromConfig.isNone then fromConfig
  else
    let candidates : List (Option String) :=
      [ if p.cls.configPfx ≠ "" then
          env.getenv (p.cls.configPfx ++ "_" ++ providerEnvName p ++ "_" ++ pyUpper key)
        else Option.none
      , env.getenv (providerEnvName p ++ "_" ++ pyUpper key)
      , env.getenv (pyUpper key) ]
    match (candidates.filterMap id).head? with
    | some s => .str s
    | Option.none => default

/-- The claim's expression for the stored config: the comprehension
`{k: C[k] for k in K if k in C}` when `K` is non-empty, else a full copy
of `C`. -/
def storedConfigSpec (K : List String) (C : Dict PyVal) : Dict PyVal :=
  if K = [] then C
  else K.foldl
    (fun acc k => if Dict.hasKey C k then Dict.insert acc k (configGet C k) else acc)
    []

/-- Concrete provider class used by the C8 witness. -/
def c8cls : ProviderClassDef :=
  { pyName := "DemoProvider"
    isProviderSubclass := true
    name? := some (.str "demo")
    display_name? := some (.str "Demo")
    config_keys := ["a", "b"]
    configPfx := ""
    config_defaults := []
    required_packages := []
    services := []
    attrs := fun _ => .missing
    provider_can_be_used := Option.none }

/-- Concrete config mapping used by the C8 witness. -/
def c8C : Dict PyVal := [("a", .int 1), ("c", .int 2)]

/-- The instance `providerInit` constructs in the C8 witness. -/
def c8inst : Instance :=
  { cls := c8cls
    name := .str "demo"
    display_name := .str "Demo"
    _config := some [("a", .int 1)]
    configKeysCache := Option.none
    packagesCache := Option.none
    servicesCache := Option.none
    extraAttrs := [] }

/-- Concrete provider instance used by the C10 witness: declared keys
`["a", "b"]`, stored config `{"a": 1}`. -/
def c10p : Instance :=
  { cls :=
      { pyName := "DemoProvider"
        isProviderSubclass := true
        name? := some (.str "demo")
        display_name? := some (.str "Demo")
        config_keys := ["a", "b"]
        configPfx := ""
        config_defaults := []
        required_packages := []
        services := []
        attrs := fun _ => .missing
        provider_can_be_used := Option.none }
    name := .str "demo"
    display_name := .str "Demo"
    _config := some [("a", .int 1)]
    configKeysCache := Option.none
    packagesCache := Option.none
    servicesCache := Option.none
    extraAttrs := [] }

/-- Concrete mapping passed to `configure` in the C10 witness; the key
`"z"` is not declared. -/
def c10c : Dict PyVal := [("b", .int 2), ("z", .int 9)]

/-! ## Claim C2: the claimed display_name-defaults-to-name behaviour -/

/-- Concrete provider class for C2: class attribute `name = "demo"` and no
`display_name` class attribute (on `ProviderBase` the field is only
annotated, never assigned, so `getattr(self, "display_name")` raises). -/
def c2cls : ProviderClassDef :=
  { pyName := "DemoProvider"
    isProviderSubclass := true
    name? := some (.str "demo")
    display_name? := Option.none
    config_keys := []
    configPfx := ""
    config_defaults := []
    required_packages := []
    services := []
    attrs := fun _ => .missing
    provider_can_be_used := Option.none }

/-! ## Claim C1: per-record error isolation in the declarative-config
loader -/

/-- Provider class whose construction raises `ValueError` (empty class
`name`), used by C1. -/
def c1BadCls : ProviderClassDef :=
  { pyName := "BadProvider"
    isProviderSubclass := true
    name? := some (.str "")
    display_name? := some (.str "Bad")
    config_keys := []
    configPfx := ""
    config_defaults := []
    required_packages := []
    services := []
    attrs := fun _ => .missing
    provider_can_be_used := Option.none }

/-- Well-formed provider class used by C1. -/
def c1GoodCls : ProviderClassDef :=
  { pyName := "GoodProvider"
    isProviderSubclass := true
    name? := some (.str "Good")
    display_name? := some (.str "Good Provider")
    config_keys := []
    configPfx := ""
    config_defaults := []
    required_packages := []
    services := []
    attrs := fun _ => .missing
    provider_can_be_used := Option.none }

/-- Import environment for C1: one module `mod` exposing both classes. -/
def c1ienv : ImportEnv :=
  { resolve := fun m =>
      if m = "mod" then some [("Bad", .cls c1BadCls), ("Good", .cls c1GoodCls)]
      else Option.none }

/-- Record whose construction raises `ValueError`. -/
def c1badRec : ConfigRecord :=
  { classPath := "mod.Bad", config := .dict [], kwargs := [] }

/-- Record that loads successfully. -/
def c1goodRec : ConfigRecord :=
  { classPath := "mod.Good", config := .dict [], kwargs := [] }

/-- Record whose resolution raises `ImportError` (unknown module). -/
def c1badImportRec : ConfigRecord :=
  { classPath := "nomod.X", config := .dict [], kwargs := [] }

/-- The instance the good C1 record constructs. -/
def c1goodInst : Instance :=
  { cls := c1GoodCls
    name := .str "Good"
    display_name := .str "Good Provider"
    _config := some []
    configKeysCache := Option.none
    packagesCache := Option.none
    servicesCache := Option.none
    extraAttrs := [] }

/-- Conforming class whose own name does not contain "Provider". -/
def c3AlphabetCls : ModuleClass :=
  { pyName := "Alphabet"
    isBaseItself := false
    subclassOfBase := true
    definedHere := true
    nameAttr := some (.str "alpha") }

/-- Scan file exposing only `c3AlphabetCls`, loadable in either mode. -/
def c3file : ScanFile :=
  { fileName := "alpha.py"
    loadedViaImport := some [c3AlphabetCls]
    loadedDirect := some [c3AlphabetCls] }

/-- Conforming class named `FooProvider`, used by the C3 witness. -/
def c3FooCls : ModuleClass :=
  { pyName := "FooProvider"
    isBaseItself := false
    subclassOfBase := true
    definedHere := true
    nameAttr := some (.str "foo") }

/-- Scan file exposing `c3FooCls`. -/
def c3fileGood : ScanFile :=
  { fileName := "foo.py"
    loadedViaImport := some [c3FooCls]
    loadedDirect := some [c3FooCls] }

/-! ## Claim C4: try-first when every provider fails -/

/-- Does the call raise `RuntimeError`? -/
def raisesRuntimeError (r : Except PyErr TryFirstReturn) : Bool :=
  match r with
  | .error (.runtimeError _) => true
  | _ => false

/-- A provider on which the try-first loop would return successfully:
usable, no readiness errors, and a callable target method whose invocation
returns normally. -/
def firstSucceeds (env : Env) (command : String) (p : Instance) : Bool :=
  !canBeUsedIsFalse p && (tryFirstErrors env p).isEmpty &&
    (match p.getAttr command with
     | .callableFn _ (.ok _) => true
     | _ => false)

/-- Environment for the C4 items: nothing installed, empty environment. -/
def c4env : Env :=
  { getenv := fun _ => Option.none
    installed := fun _ => false }

/-- Provider for the C4 items: requires a package that is not installed,
so readiness always fails. -/
def c4p : Instance :=
  { cls :=
      { pyName := "PProvider"
        isProviderSubclass := true
        name? := some (.str "p")
        display_name? := some (.str "P")
        config_keys := []
        configPfx := ""
        config_defaults := []
        required_packages := ["pkg"]
        services := []
        attrs := fun _ => .missing
        provider_can_be_used := Option.none }
    name := .str "p"
    display_name := .str "P"
    _config := some []
    configKeysCache := Option.none
    packagesCache := Option.none
    servicesCache := Option.none
    extraAttrs := [] }

/-- Environment for the C6 witness: every package installed except
`missing_pkg`. -/
def c6env : Env :=
  { getenv := fun _ => Option.none
    installed := fun s => s ≠ "missing_pkg" }

/-- C6 witness provider whose method raises. -/
def c6A : Instance :=
  { cls :=
      { pyName := "AProvider"
        isProviderSubclass := true
        name? := some (.str "a")
        display_name? := some (.str "A")
        config_keys := []
        configPfx := ""
        config_defaults := []
        required_packages := []
        services := ["run"]
        attrs := fun s => if s = "run" then .callableFn false (.exn "boom") else .missing
        provider_can_be_used := Option.none }
    name := .str "a"
    display_name := .str "A"
    _config := some []
    configKeysCache := Option.none
    packagesCache := Option.none
    servicesCache := Option.none
    extraAttrs := [] }

/-- C6 witness provider missing a required package. -/
def c6B : Instance :=
  { cls :=
      { pyName := "BProvider"
        isProviderSubclass := true
        name? := some (.str "b")
        display_name? := some (.str "B")
        config_keys := []
        configPfx := ""
        config_defaults := []
        required_packages := ["missing_pkg"]
        services := ["run"]
        attrs := fun s => if s = "run" then .callableFn false (.ok (.int 0)) else .missing
        provider_can_be_used := Option.none }
    name := .str "b"
    display_name := .str "B"
    _config := some []
    configKeysCache := Option.none
    packagesCache := Option.none
    servicesCache := Option.none
    extraAttrs := [] }

/-- C6 witness provider that succeeds. -/
def c6C : Instance :=
  { cls :=
      { pyName := "CProvider"
        isProviderSubclass := true
        name? := some (.str "c")
        display_name? := some (.str "C")
        config_keys := []
        configPfx := ""
        config_defaults := []
        required_packages := []
        services := ["run"]
        attrs := fun s => if s = "run" then .callableFn false (.ok (.int 42)) else .missing
        provider_can_be_used := Option.none }
    name := .str "c"
    display_name := .str "C"
    _config := some []
    configKeysCache := Option.none
    packagesCache := Option.none
    servicesCache := Option.none
    extraAttrs := [] }

/-- Environment for the C7 witness: everything installed. -/
def c7env : Env :=
  { getenv := fun _ => Option.none
    installed := fun _ => true }

/-- C7 witness provider: packages and config ready and the target method
implemented, but a second declared service is missing, so FULL service
readiness fails. -/
def c7A : Instance :=
  { cls :=
      { pyName := "AProvider"
        isProviderSubclass := true
        name? := some (.str "a")
        display_name? := some (.str "A")
        config_keys := []
        configPfx := ""
        config_defaults := []
        required_packages := []
        services := ["run", "other"]
        attrs := fun s => if s = "run" then .callableFn false (.ok (.int 0)) else .missing
        provider_can_be_used := Option.none }
    name := .str "a"
    display_name := .str "A"
    _config := some []
    configKeysCache := Option.none
    packagesCache := Option.none
    servicesCache := Option.none
    extraAttrs := [] }

/-- C7 witness provider that succeeds. -/
def c7B : Instance :=
  { cls :=
      { pyName := "BProvider"
        isProviderSubclass := true
        name? := some (.str "b")
        display_name? := some (.str "B")
        config_keys := []
        configPfx := ""
        config_defaults := []
        required_packages := []
        services := ["run"]
        attrs := fun s => if s = "run" then .callableFn false (.ok (.int 7)) else .missing
        provider_can_be_used := Option.none }
    name := .str "b"
    display_name := .str "B"
    _config := some []
    configKeysCache := Option.none
    packagesCache := Option.none
    servicesCache := Option.none
    extraAttrs := [] }

/-- C7 witness provider that would also succeed but is never reached. -/
def c7C : Instance :=
  { cls :=
      { pyName := "CProvider"
        isProviderSubclass := true
        name? := some (.str "c")
        display_name? := some (.str "C")
        config_keys := []
        configPfx := ""
        config_defaults := []
        required_packages := []
        services := ["run"]
        attrs := fun s => if s = "run" then .callableFn false (.ok (.int 9)) else .missing
        provider_can_be_used := Option.none }
    name := .str "c"
    display_name := .str "C"
    _config := some []
    configKeysCache := Option.none
    packagesCache := Option.none
    servicesCache := Option.none
    extraAttrs := [] }

/-! ## Theorems -/

/-- C5. For every config key, `_get_config_or_env` resolves by the layered
precedence of the specification: a non-absent value in the instance config
dict beats every environment lookup, otherwise the prefixed+name-scoped
variable, then the name-scoped variable, then the bare upper-cased key,
first non-absent value winning, else the default — in particular, with the
key absent from instance config and both the prefixed+name-scoped variable
and the bare variable set, the prefixed+name-scoped value wins. -/
theorem c5_config_env_precedence (env : Env) (p : Instance) (key : String)
    (default : PyVal) :
    get_config_or_env env p key default = resolutionChainSpec env p key default := by
  unfold get_config_or_env resolutionChainSpec
  cases hc : (configGet p.configDict key).isNone
  · simp [hc]
  · cases h1 : (if p.cls.configPfx ≠ "" then
        env.getenv (p.cls.configPfx ++ "_" ++ providerEnvName p ++ "_" ++ pyUpper key)
      else Option.none) <;>
      cases h2 : env.getenv (providerEnvName p ++ "_" ++ pyUpper key) <;>
      cases h3 : env.getenv (pyUpper key) <;>
      simp [hc, h1, h2, h3, List.filterMap]

/-! ## Claim C9: readiness caches — idempotence, explicit invalidation, and
invalidation by `configure` -/

/-- C9. Calling any of the three readiness checks twice without mutating
inputs returns the identical mapping and leaves the state unchanged (the
second call is a cache hit); `clear_*_cache` followed by the check
recomputes the mapping from the current environment; and `configure`
clears the config-keys cache, so the next read recomputes from the updated
config. -/
theorem c9_cache_idempotence_and_invalidation (env env' : Env) (p : Instance)
    (c : Dict PyVal) (replace : Bool) :
    (check_packages env (check_packages env p).2 = check_packages env p)
    ∧ (check_services (check_services p).2 = check_services p)
    ∧ (check_config_keys env (check_config_keys env p Option.none).2 Option.none
        = check_config_keys env p Option.none)
    ∧ ((check_packages env' (clear_packages_cache p)).1 = packagesStatus env' p)
    ∧ ((check_services (clear_services_cache p)).1 = servicesStatus p)
    ∧ ((check_config_keys env' (clear_config_cache p) Option.none).1
        = configKeysStatus env' p p.configDict)
    ∧ ((configure p c replace).configKeysCache = Option.none)
    ∧ ((check_config_keys env' (configure p c replace) Option.none).1
        = configKeysStatus env' (configure p c replace)
            (configure p c replace).configDict) := by
  refine ⟨?_, ?_, ?_, ?_, ?_, ?_, ?_, ?_⟩
  · cases hp : p.packagesCache <;> simp [check_packages, hp]
  · cases hs : p.servicesCache <;> simp [check_services, hs]
  · cases hc : p.configKeysCache <;> simp [check_config_keys, hc]
  · rfl
  · rfl
  · rfl
  · rfl
  · rfl

/-! ## Claim C8: the config stored at construction -/

theorem Dict.hasKey_eq_isSome {α : Type} (d : Dict α) (k : String) :
    Dict.hasKey d k = (Dict.lookup d k).isSome := by
  induction d with
  | nil => rfl
  | cons e rest ih =>
    obtain ⟨k', v⟩ := e
    by_cases h : k' = k <;> simp [Dict.hasKey, Dict.lookup, h, ih]

theorem filter_config_eq_spec (K : List String) (C : Dict PyVal) :
    filter_config K C = storedConfigSpec K C := by
  unfold filter_config storedConfigSpec
  have hfg : (fun (acc : Dict PyVal) key =>
        match Dict.lookup C key with
        | some v => Dict.insert acc key v
        | Option.none => acc)
      = (fun (acc : Dict PyVal) k =>
        if Dict.hasKey C k then Dict.insert acc k (configGet C k) else acc) := by
    funext acc key
    cases h : Dict.lookup C key <;> simp [Dict.hasKey_eq_isSome, h, configGet]
  cases K with
  | nil => simp
  | cons k ks => simp [hfg]

/-- C8. For every supplied config mapping `C` and declared `config_keys`
`K`, the config stored by `ProviderBase.__init__` is exactly
`{k: C[k] for k in K if k in C}` when `K` is non-empty, and a full copy of
`C` when `K` is empty. -/
theorem c8_stored_config_filtered (cls : ProviderClassDef) (kwargs : Dict PyVal)
    (C : Dict PyVal) (inst : Instance)
    (h : providerInit cls kwargs (.dict C) = .ok inst) :
    inst._config = some (storedConfigSpec cls.config_keys C) := by
  unfold providerInit at h
  split at h
  · exact absurd h (by simp)
  · split at h
    · exact absurd h (by simp)
    · split at h
      · exact absurd h (by simp)
      · split at h
        · exact absurd h (by simp)
        · injection h with h
          subst h
          simp [init_config, filter_config_eq_spec]

/-- Witness for C8 at a concrete class and config mapping. -/
theorem c8_witness :
    providerInit c8cls [] (.dict c8C) = .ok c8inst ∧
      c8inst._config = some (storedConfigSpec c8cls.config_keys c8C) :=
  ⟨rfl, c8_stored_config_filtered c8cls [] c8C c8inst rfl⟩

/-! ## Claim C10: `configure` keeps the stored config inside the declared
keys -/

theorem Dict.hasKey_insert {α : Type} (d : Dict α) (k k' : String) (v : α) :
    Dict.hasKey (Dict.insert d k v) k' = (k = k' || Dict.hasKey d k') := by
  induction d with
  | nil => simp [Dict.insert, Dict.hasKey]
  | cons e rest ih =>
    obtain ⟨k0, v0⟩ := e
    by_cases h : k0 = k
    · subst h
      simp [Dict.insert, Dict.hasKey]
    · simp [Dict.insert, Dict.hasKey, h, ih, Bool.or_left_comm]

theorem Dict.lookup_insert {α : Type} (d : Dict α) (k k' : String) (v : α) :
    Dict.lookup (Dict.insert d k v) k'
      = if k = k' then some v else Dict.lookup d k' := by
  induction d with
  | nil => simp [Dict.insert, Dict.lookup]
  | cons e rest ih =>
    obtain ⟨k0, v0⟩ := e
    by_cases h : k0 = k
    · subst h
      by_cases h2 : k0 = k' <;> simp [Dict.insert, Dict.lookup, h2]
    · by_cases h2 : k0 = k'
      · subst h2
        have hk : ¬ k = k0 := fun hh => h hh.symm
        simp [Dict.insert, Dict.lookup, h, hk]
      · simp [Dict.insert, Dict.lookup, h, h2, ih]

theorem Dict.update_cons {α : Type} (d1 : Dict α) (e : String × α) (rest : Dict α) :
    Dict.update d1 (e :: rest) = Dict.update (Dict.insert d1 e.1 e.2) rest := rfl

theorem Dict.hasKey_update {α : Type} (d1 d2 : Dict α) (k : String) :
    Dict.hasKey (Dict.update d1 d2) k = (Dict.hasKey d1 k || Dict.hasKey d2 k) := by
  induction d2 generalizing d1 with
  | nil => simp [Dict.update, Dict.hasKey]
  | cons e rest ih =>
    rw [Dict.update_cons, ih, Dict.hasKey_insert]
    simp [Dict.hasKey, Bool.or_assoc, Bool.or_comm, Bool.or_left_comm]

theorem Dict.lookup_update_notin {α : Type} (d1 d2 : Dict α) (k : String)
    (h : Dict.hasKey d2 k = false) :
    Dict.lookup (Dict.update d1 d2) k = Dict.lookup d1 k := by
  induction d2 generalizing d1 with
  | nil => rfl
  | cons e rest ih =>
    obtain ⟨k0, v0⟩ := e
    simp [Dict.hasKey] at h
    rw [Dict.update_cons, ih _ h.2, Dict.lookup_insert]
    simp [h.1]

theorem hasKey_filter_fold (C : Dict PyVal) (K : List String) (init : Dict PyVal)
    (k : String)
    (h : Dict.hasKey
      (K.foldl (fun acc key =>
        match Dict.lookup C key with
        | some v => Dict.insert acc key v
        | Option.none => acc) init) k = true) :
    Dict.hasKey init k = true ∨ k ∈ K := by
  induction K generalizing init with
  | nil => exact Or.inl h
  | cons key ks ih =>
    rw [List.foldl_cons] at h
    rcases ih _ h with h' | h'
    · cases hl : Dict.lookup C key with
      | none => rw [hl] at h'; exact Or.inl h'
      | some v =>
        rw [hl] at h'
        rw [Dict.hasKey_insert] at h'
        rcases Bool.or_eq_true_iff.mp h' with h'' | h''
        · exact Or.inr (by simp [decide_eq_true_iff.mp h''])
        · exact Or.inl h''
    · exact Or.inr (List.mem_cons_of_mem _ h')

theorem hasKey_filter_config (K : List String) (C : Dict PyVal) (k : String)
    (hK : K ≠ []) (h : Dict.hasKey (filter_config K C) k = true) : k ∈ K := by
  unfold filter_config at h
  rw [if_neg (by simpa using hK)] at h
  rcases hasKey_filter_fold C K [] k h with h' | h'
  · exact absurd h' (by simp [Dict.hasKey])
  · exact h'

theorem configure_configDict (p : Instance) (c : Dict PyVal) (replace : Bool) :
    (configure p c replace).configDict
      = if replace then filter_config p.cls.config_keys c
        else Dict.update p.configDict (filter_config p.cls.config_keys c) := by
  unfold configure clear_config_cache
  cases hp : p._config <;> cases replace <;> simp [Instance.configDict, hp]

theorem hasKey_false_lookup_none {α : Type} (d : Dict α) (k : String)
    (h : Dict.hasKey d k = false) : Dict.lookup d k = Option.none := by
  rw [Dict.hasKey_eq_isSome] at h
  exact Option.not_isSome_iff_eq_none.mp (by simp [h])

/-- C10. For a provider with non-empty declared `config_keys`, `configure`
filters the supplied mapping to the declared keys before merging or
replacing: the invariant that the stored config only holds declared keys is
preserved by every `configure` call, and a key outside `config_keys` is
silently dropped (after the call it reads as it did before the call when
merging, and as absent when replacing). -/
theorem c10_configure_preserves_declared_keys (p : Instance) (c : Dict PyVal)
    (replace : Bool) (hK : p.cls.config_keys ≠ [])
    (hinv : ∀ k, Dict.hasKey p.configDict k = true → k ∈ p.cls.config_keys) :
    (∀ k, Dict.hasKey (configure p c replace).configDict k = true
        → k ∈ p.cls.config_keys)
    ∧ (∀ k, k ∉ p.cls.config_keys →
        Dict.lookup (configure p c replace).configDict k
          = if replace = true then Option.none else Dict.lookup p.configDict k) := by
  constructor
  · intro k hk
    rw [configure_configDict] at hk
    cases replace with
    | true =>
      rw [if_pos rfl] at hk
      exact hasKey_filter_config _ _ _ hK hk
    | false =>
      rw [if_neg (by simp)] at hk
      rw [Dict.hasKey_update] at hk
      rcases Bool.or_eq_true_iff.mp hk with h' | h'
      · exact hinv k h'
      · exact hasKey_filter_config _ _ _ hK h'
  · intro k hk
    have hfk : Dict.hasKey (filter_config p.cls.config_keys c) k = false := by
      cases hfk : Dict.hasKey (filter_config p.cls.config_keys c) k
      · rfl
      · exact absurd (hasKey_filter_config _ _ _ hK hfk) hk
    rw [configure_configDict]
    cases replace with
    | true =>
      rw [if_pos rfl, if_pos rfl]
      exact hasKey_false_lookup_none _ _ hfk
    | false =>
      rw [if_neg (by simp), if_neg (by simp)]
      exact Dict.lookup_update_notin _ _ _ hfk

/-- Witness for C10: merging `{"b": 2, "z": 9}` into `c10p` leaves the
undeclared key `"z"` reading as before the call. -/
theorem c10_witness :
    Dict.lookup (configure c10p c10c false).configDict "z"
      = if false = true then Option.none else Dict.lookup c10p.configDict "z" :=
  (c10_configure_preserves_declared_keys c10p c10c false (by decide)
    (by
      intro k h
      simp only [c10p, Instance.configDict, Dict.hasKey, Option.getD, Bool.or_false,
        decide_eq_true_eq] at h
      subst h
      decide)).2 "z" (by decide)

/-- C2. Constructing a provider with a non-empty `name` and no
`display_name` supplied does NOT succeed with `display_name` defaulting to
`name`: because `kwargs.pop(field, getattr(self, field))` evaluates the
`getattr` default eagerly and no code path ever copies `name` into
`display_name`, construction raises `AttributeError`.  This contradicts the
constructor's own docstring ("defaults to name if not provided"), so the
code, not the claim, is at fault. -/
theorem c2_display_name_default_missing :
    providerInit c2cls [] .absent = .error .attributeError := rfl

/-- Counterexample to C1 as stated: in the batch [bad, good], the bad
record's construction raises `ValueError` — which the loader's `except
(ImportError, AttributeError, TypeError)` clause does not catch — so the
whole load aborts with the exception instead of returning the mapping with
the good record, even though the good record loads fine on its own. -/
theorem c1_counterexample :
    load_providers_from_config c1ienv [c1badRec, c1goodRec]
      = .error (.valueError "name is required and cannot be empty")
    ∧ load_providers_from_config c1ienv [c1goodRec]
      = .ok [("good", c1goodInst)] :=
  ⟨rfl, rfl⟩

theorem loadConfigGo_skip (ienv : ImportEnv) (pre post : List ConfigRecord)
    (rec : ConfigRecord) (e : PyErr) (h : loadOneRecord ienv rec = .error e)
    (hc : e.caughtByConfigLoader = true) (acc : Dict Instance) :
    loadConfigGo ienv (pre ++ rec :: post) acc = loadConfigGo ienv (pre ++ post) acc := by
  induction pre generalizing acc with
  | nil => simp [loadConfigGo, h, hc]
  | cons r rs ih =>
    simp only [List.cons_append, loadConfigGo]
    cases hr : loadOneRecord ienv r with
    | ok o =>
      cases o with
      | none => exact ih _
      | some pr => exact ih _
    | error e' =>
      cases he' : e'.caughtByConfigLoader
      · simp [he']
      · simpa [he'] using ih _

/-- C1 (amended). Errors of the kinds the loader's `except` clause names
(`ImportError`, `AttributeError`, `TypeError` — bad module path, missing
symbol, non-class or bad keyword arguments) are isolated per record: the
batch result is as if the failing record were not there.  (As stated the
claim is false: a `ValueError` raised by construction — e.g. an empty
`name`/`display_name` — is not caught and aborts the remaining records.) -/
theorem c1_isolation_of_caught_errors (ienv : ImportEnv)
    (pre post : List ConfigRecord) (rec : ConfigRecord) (e : PyErr)
    (h : loadOneRecord ienv rec = .error e) (hc : e.caughtByConfigLoader = true) :
    load_providers_from_config ienv (pre ++ rec :: post)
      = load_providers_from_config ienv (pre ++ post) :=
  loadConfigGo_skip ienv pre post rec e h hc []

/-- Witness for C1 at a concrete batch: an `ImportError` record appended
after a good record changes nothing. -/
theorem c1_witness :
    load_providers_from_config c1ienv [c1goodRec, c1badImportRec]
      = load_providers_from_config c1ienv [c1goodRec] :=
  c1_isolation_of_caught_errors c1ienv [c1goodRec] [] c1badImportRec
    .importError rfl rfl

/-! ## Claim C3: the "Provider"-substring condition in autodiscovery -/

theorem Dict.mem_insert {α : Type} (d : Dict α) (key k : String) (val v : α)
    (h : (k, v) ∈ Dict.insert d key val) : (k, v) ∈ d ∨ (k = key ∧ v = val) := by
  induction d with
  | nil =>
    simp [Dict.insert] at h
    exact Or.inr ⟨h.1, h.2⟩
  | cons e rest ih =>
    obtain ⟨k0, v0⟩ := e
    by_cases hk : k0 = key
    · subst hk
      simp only [Dict.insert, if_pos rfl] at h
      rcases List.mem_cons.mp h with h' | h'
      · exact Or.inr ⟨congrArg Prod.fst h', congrArg Prod.snd h'⟩
      · exact Or.inl (List.mem_cons_of_mem _ h')
    · simp only [Dict.insert, if_neg hk] at h
      rcases List.mem_cons.mp h with h' | h'
      · exact Or.inl (h' ▸ List.mem_cons_self _ _)
      · rcases ih h' with h'' | h''
        · exact Or.inl (List.mem_cons_of_mem _ h'')
        · exact Or.inr h''

theorem Dict.mem_update {α : Type} (d1 d2 : Dict α) (k : String) (v : α)
    (h : (k, v) ∈ Dict.update d1 d2) : (k, v) ∈ d1 ∨ (k, v) ∈ d2 := by
  induction d2 generalizing d1 with
  | nil => exact Or.inl h
  | cons e rest ih =>
    rw [Dict.update_cons] at h
    rcases ih _ h with h' | h'
    · rcases Dict.mem_insert _ _ _ _ _ h' with h'' | ⟨hk, hv⟩
      · exact Or.inl h''
      · exact Or.inr (by
          obtain ⟨k0, v0⟩ := e
          simp only at hk hv
          subst hk; subst hv
          exact List.mem_cons_self _ _)
    · exact Or.inr (List.mem_cons_of_mem _ h')

theorem Dict.lookup_mem {α : Type} (d : Dict α) (k : String) (v : α)
    (h : Dict.lookup d k = some v) : (k, v) ∈ d := by
  induction d with
  | nil => simp [Dict.lookup] at h
  | cons e rest ih =>
    obtain ⟨k0, v0⟩ := e
    by_cases hk : k0 = k
    · subst hk
      simp [Dict.lookup] at h
      subst h
      exact List.mem_cons_self _ _
    · simp only [Dict.lookup, if_neg hk] at h
      exact List.mem_cons_of_mem _ (ih h)

/-- Every class registered by the extraction loop (beyond the incoming
accumulator) passed the full member filter, including the
"Provider"-in-name condition. -/
theorem extractGo_values (members : List ModuleClass) (acc d : Dict ModuleClass)
    (h : extractGo members acc = .ok d) (k : String) (c : ModuleClass)
    (hm : (k, c) ∈ d) :
    (k, c) ∈ acc
    ∨ (containsSub c.pyName "Provider" = true ∧ c.subclassOfBase = true
        ∧ c.isBaseItself = false ∧ c.definedHere = true) := by
  induction members generalizing acc with
  | nil =>
    unfold extractGo at h
    injection h with h
    exact Or.inl (h ▸ hm)
  | cons m rest ih =>
    unfold extractGo at h
    split at h
    · rename_i hfilter
      split at h
      · rename_i s hs
        split at h
        · rcases ih _ h with h' | h'
          · rcases Dict.mem_insert _ _ _ _ _ h' with h'' | ⟨hk, hv⟩
            · exact Or.inl h''
            · refine Or.inr ?_
              subst hv
              simp only [Bool.and_eq_true, Bool.not_eq_true'] at hfilter
              exact ⟨hfilter.2, hfilter.1.1.2, hfilter.1.1.1, hfilter.1.2⟩
          · exact Or.inr h'
        · exact ih _ h
      · exact absurd h (by simp)
    · exact ih _ h

/-- Every class in the accumulated scan result satisfies the
"Provider"-in-name condition, whatever the scan mode. -/
theorem autodiscoverGo_values (eb : Option String) (excl : List String)
    (files : List ScanFile) (provs : Dict ModuleClass)
    (hinv : ∀ k c, (k, c) ∈ provs → containsSub c.pyName "Provider" = true)
    (k : String) (c : ModuleClass)
    (hm : (k, c) ∈ autodiscoverGo eb excl files provs) :
    containsSub c.pyName "Provider" = true := by
  induction files generalizing provs with
  | nil => exact hinv _ _ hm
  | cons f rest ih =>
    unfold autodiscoverGo at hm
    split at hm
    · exact ih _ hinv hm
    · split at hm
      · exact ih _ hinv hm
      · rename_i members hmembers
        split at hm
        · rename_i found hfound
          refine ih _ ?_ hm
          intro k' c' hm'
          rcases Dict.mem_update _ _ _ _ hm' with h' | h'
          · exact hinv _ _ h'
          · rcases extractGo_values members [] found hfound k' c' h' with h'' | h''
            · simp at h''
            · exact h''.1
        · exact ih _ hinv hm

/-- Counterexample to C3 as stated: scanning WITH a base namespace, a class
that conforms to the provider contract, is not the base type, and is
defined directly in the scanned unit — but is named `Alphabet` — is NOT
discovered: the `"Provider" in name` condition is applied in this mode
too, contrary to the claim that with a base namespace every such type is
discovered regardless of its name. -/
theorem c3_counterexample :
    autodiscover_providers [c3file] (some "pkg") Option.none
        ["__init__.py", "base.py"] = []
    ∧ c3AlphabetCls.subclassOfBase = true
    ∧ c3AlphabetCls.isBaseItself = false
    ∧ c3AlphabetCls.definedHere = true :=
  ⟨rfl, rfl, rfl, rfl⟩

/-- C3 (amended). The condition that a type's own name contain "Provider"
is applied in EVERY autodiscovery mode — with or without a base namespace:
any class registered by a scan has "Provider" as a substring of its own
name.  (As stated the claim is false: the condition is not restricted to
base-namespace-free scans.) -/
theorem c3_name_filter_always_applied (files : List ScanFile)
    (base? inferred : Option String) (excl : List String) (k : String)
    (c : ModuleClass)
    (h : Dict.lookup (autodiscover_providers files base? inferred excl) k = some c) :
    containsSub c.pyName "Provider" = true :=
  autodiscoverGo_values (base?.orElse (fun _ => inferred)) excl files []
    (by intro _ _ hm; simp at hm) k c (Dict.lookup_mem _ _ _ h)

/-- Witness for C3 at a concrete scan with a base namespace. -/
theorem c3_witness : containsSub c3FooCls.pyName "Provider" = true :=
  c3_name_filter_always_applied [c3fileGood] (some "pkg") Option.none
    ["__init__.py", "base.py"] "foo" c3FooCls rfl

/-- If no provider in the list succeeds, the try-first loop never takes its
early-return branch. -/
theorem tryFirstLoop_none (env : Env) (command : String)
    (ps : List (String × Instance))
    (hfail : ∀ e ∈ ps, firstSucceeds env command e.2 = false)
    (results : Dict ResultEntry) (without trace : List String) :
    (tryFirstLoop env command Option.none ps results without trace).1
      = Option.none := by
  induction ps generalizing results without trace with
  | nil => rfl
  | cons e rest ih =>
    obtain ⟨name, p⟩ := e
    have hf := hfail _ (List.mem_cons_self _ _)
    have hrest : ∀ e ∈ rest, firstSucceeds env command e.2 = false :=
      fun e he => hfail _ (List.mem_cons_of_mem _ he)
    simp only [firstSucceeds, Bool.and_eq_false_iff, Bool.not_eq_false'] at hf
    unfold tryFirstLoop
    by_cases hcb : canBeUsedIsFalse p = true
    · simp only [hcb, if_pos rfl]
      exact ih hrest _ _ _
    · rw [if_neg (by simpa using hcb)]
      by_cases herr : (tryFirstErrors env p).isEmpty = true
      · rw [if_neg (by simpa using herr)]
        cases hattr : p.getAttr command with
        | missing => exact ih hrest _ _ _
        | nonCallable v => exact ih hrest _ _ _
        | callableFn isType result =>
          cases result with
          | ok v =>
            exfalso
            rcases hf with (hf | hf) | hf
            · exact hcb (by simpa using hf)
            · exact absurd herr (by simp [hf])
            · rw [hattr] at hf
              simp at hf
          | exn m => exact ih hrest _ _ _
      · have herr' : (tryFirstErrors env p).isEmpty = false := by
          cases hh : (tryFirstErrors env p).isEmpty
          · rfl
          · exact absurd hh herr
        rw [if_pos (by simp [herr'])]
        exact ih hrest _ _ _

/-- C4 (amended). When no output format is requested, a try-first run over
a non-empty collection in which every provider fails — by readiness
errors, by its method raising, by lacking the method, or by being marked
unusable — raises `RuntimeError` to the caller.  (As stated the claim is
false: with a `format` argument the aggregated all-fail result is returned
as a formatted value, not raised — see the counterexample.) -/
theorem c4_all_fail_raises_without_format (env : Env) (command : String)
    (providers : Dict Instance) (hne : providers ≠ [])
    (hfail : ∀ e ∈ providers, firstSucceeds env command e.2 = false) :
    raisesRuntimeError (try_providers_first env command providers Option.none)
      = true := by
  unfold try_providers_first
  rw [if_neg (by simpa [List.isEmpty_iff] using hne)]
  have h1 := tryFirstLoop_none env command providers hfail [] [] []
  cases hloop : tryFirstLoop env command Option.none providers [] [] [] with
  | mk fst rest =>
    rw [hloop] at h1
    simp only at h1
    subst h1
    obtain ⟨results, without, trace⟩ := rest
    by_cases hres : (results.isEmpty && !without.isEmpty) = true
    · simp [hres, raisesRuntimeError]
    · simp [hres, raisesRuntimeError]

/-- Counterexample to C4 as stated: with a `format` argument, an all-fail
try-first run RETURNS the formatted aggregated result as a normal value
instead of raising it. -/
theorem c4_counterexample :
    try_providers_first c4env "run" [("p", c4p)] (some "json")
      = .ok (.formatted [("p", .errors ["Packages missing: pkg"] (.str "P"))]
          "json") := rfl

/-- Witness for C4 at a concrete all-fail collection without a format. -/
theorem c4_witness :
    raisesRuntimeError
      (try_providers_first c4env "run" [("p", c4p)] Option.none) = true :=
  c4_all_fail_raises_without_format c4env "run" [("p", c4p)]
    (List.cons_ne_nil _ _)
    (by
      intro e he
      rcases List.mem_singleton.mp he with rfl
      rfl)

/-! ## Claim C6: try-all aggregation over a mixed collection -/

/-- A provider whose package check fails always collects at least one
readiness error in the try-all loop. -/
theorem tryAllErrors_ne_nil_of_missing_packages (env : Env) (cmd : String)
    (p : Instance) (h : (are_packages_installed env p).1 = false) :
    tryAllErrors env cmd p ≠ [] := by
  unfold tryAllErrors
  cases hp : are_packages_installed env p with
  | mk pkgsOk p1 =>
    rw [hp] at h
    simp only at h
    subst h
    simp only [Bool.not_false, if_pos rfl]
    cases hm : get_missing_packages env p1 with
    | mk missing p2 =>
      have he0 : (if missing = [] then ["package_missing"]
          else ["Packages missing: " ++ String.intercalate ", " missing]) ≠ [] := by
        split <;> simp
      generalize (if missing = [] then ["package_missing"]
          else ["Packages missing: " ++ String.intercalate ", " missing]) = e0 at he0 ⊢
      repeat' split
      all_goals simp_all [he0]

/-- C6. For three distinctly-named providers submitted to try-all where `A`
is usable with no readiness errors but its method raises, `B` is usable
but missing a required package, and `C` is usable with no readiness errors
and a method returning normally, the returned mapping has exactly the three
entries — one `error` (the stringified exception), one `errors` (the
readiness failure reasons), one `result` — and the method is invoked only
on `A` and `C`, never on the provider with readiness failures. -/
theorem c6_try_all_aggregation (env : Env) (cmd : String) (a b c : String)
    (A B C : Instance) (v : PyVal) (msgA : String) (iA iC : Bool)
    (hab : a ≠ b) (hac : a ≠ c) (hbc : b ≠ c)
    (hA1 : canBeUsedIsFalse A = false)
    (hA2 : tryAllErrors env cmd A = [])
    (hA3 : A.getAttr cmd = .callableFn iA (.exn msgA))
    (hB1 : canBeUsedIsFalse B = false)
    (hB2 : (are_packages_installed env B).1 = false)
    (hC1 : canBeUsedIsFalse C = false)
    (hC2 : tryAllErrors env cmd C = [])
    (hC3 : C.getAttr cmd = .callableFn iC (.ok v)) :
    try_providers env cmd [(a, A), (b, B), (c, C)] Option.none
      = .ok (.mapping [(a, .error msgA A.display_name),
          (b, .errors (tryAllErrors env cmd B) B.display_name),
          (c, .result v C.display_name)])
    ∧ tryAllInvoked env cmd [(a, A), (b, B), (c, C)] = [a, c] := by
  have hBerr : (tryAllErrors env cmd B).isEmpty = false := by
    have hne := tryAllErrors_ne_nil_of_missing_packages env cmd B hB2
    cases hh : tryAllErrors env cmd B
    · exact absurd hh hne
    · rfl
  have h1 : tryAllStep env cmd ([], [], []) (a, A)
      = ([(a, ResultEntry.error msgA A.display_name)], [], [a]) := by
    unfold tryAllStep
    simp [hA1, hA2, hA3, Dict.insert]
  have h2 : tryAllStep env cmd
        ([(a, ResultEntry.error msgA A.display_name)], [], [a]) (b, B)
      = ([(a, ResultEntry.error msgA A.display_name),
          (b, ResultEntry.errors (tryAllErrors env cmd B) B.display_name)],
          [], [a]) := by
    unfold tryAllStep
    simp [hB1, hBerr, Dict.insert, hab]
  have h3 : tryAllStep env cmd
        ([(a, ResultEntry.error msgA A.display_name),
          (b, ResultEntry.errors (tryAllErrors env cmd B) B.display_name)],
          [], [a]) (c, C)
      = ([(a, ResultEntry.error msgA A.display_name),
          (b, ResultEntry.errors (tryAllErrors env cmd B) B.display_name),
          (c, ResultEntry.result v C.display_name)], [], [a, c]) := by
    unfold tryAllStep
    simp [hC1, hC2, hC3, Dict.insert, hac, hbc]
  have hrun : tryAllRun env cmd [(a, A), (b, B), (c, C)]
      = ([(a, ResultEntry.error msgA A.display_name),
          (b, ResultEntry.errors (tryAllErrors env cmd B) B.display_name),
          (c, ResultEntry.result v C.display_name)], [], [a, c]) := by
    unfold tryAllRun
    rw [List.foldl_cons, h1, List.foldl_cons, h2, List.foldl_cons, h3,
      List.foldl_nil]
  constructor
  · unfold try_providers
    rw [if_neg (by simp)]
    rw [hrun]
    rfl
  · unfold tryAllInvoked
    rw [hrun]

/-- Witness for C6 at three concrete providers. -/
theorem c6_witness :
    try_providers c6env "run" [("a", c6A), ("b", c6B), ("c", c6C)] Option.none
      = .ok (.mapping [("a", .error "boom" c6A.display_name),
          ("b", .errors (tryAllErrors c6env "run" c6B) c6B.display_name),
          ("c", .result (.int 42) c6C.display_name)])
    ∧ tryAllInvoked c6env "run" [("a", c6A), ("b", c6B), ("c", c6C)]
      = ["a", "c"] :=
  c6_try_all_aggregation c6env "run" "a" "b" "c" c6A c6B c6C (.int 42) "boom"
    false false (by decide) (by decide) (by decide) rfl rfl rfl rfl rfl rfl rfl rfl

/-! ## Claim C7: try-first full readiness and short-circuit -/

/-- The config-readiness answer is unchanged by the instance returned from
the package check (which only populates the package cache). -/
theorem config_fst_after_pkg_check (env : Env) (p : Instance) :
    (is_config_ready env ((are_packages_installed env p).2) Option.none).1
      = (is_config_ready env p Option.none).1 := by
  cases hp : p.packagesCache <;> cases hc : p.configKeysCache <;>
    simp [are_packages_installed, check_packages, is_config_ready,
      check_config_keys, configKeysStatus, get_config_or_env, providerEnvName,
      Instance.configDict, hp, hc]

/-- The service-readiness answer is unchanged by the instances returned
from the package and config checks (which only populate those caches). -/
theorem services_fst_after_checks (env : Env) (p : Instance) :
    (are_services_implemented
      ((is_config_ready env ((are_packages_installed env p).2) Option.none).2)).1
      = (are_services_implemented p).1 := by
  cases hp : p.packagesCache <;> cases hc : p.configKeysCache <;>
    cases hs : p.servicesCache <;>
      simp [are_packages_installed, check_packages, is_config_ready,
        check_config_keys, are_services_implemented, check_services,
        servicesStatus, is_service_implemented, Instance.getAttr, hp, hc, hs]

/-- A provider whose packages and config are ready but whose full service
readiness fails always collects at least one readiness error in the
try-first loop. -/
theorem tryFirstErrors_ne_nil_of_services (env : Env) (p : Instance)
    (h1 : (are_packages_installed env p).1 = true)
    (h2 : (is_config_ready env p Option.none).1 = true)
    (h3 : (are_services_implemented p).1 = false) :
    tryFirstErrors env p ≠ [] := by
  have hcfg := config_fst_after_pkg_check env p
  have hsvc := services_fst_after_checks env p
  unfold tryFirstErrors
  cases hp : are_packages_installed env p with
  | mk pkgsOk p1 =>
    rw [hp] at h1 hcfg hsvc
    simp only at h1
    subst h1
    simp only [Bool.not_true, Bool.false_eq_true, if_false]
    cases hc : is_config_ready env p1 Option.none with
    | mk cfgOk p2 =>
      rw [hc] at hcfg hsvc
      simp only at hcfg
      rw [h2] at hcfg
      subst hcfg
      simp only [Bool.not_true, Bool.false_eq_true, if_false]
      cases hs : are_services_implemented p2 with
      | mk svcOk p3 =>
        rw [hs] at hsvc
        simp only at hsvc
        rw [h3] at hsvc
        subst hsvc
        simp only [Bool.not_false, if_true]
        split
        · split <;> simp
        · simp

/-- C7. Try-first requires full service readiness and short-circuits: for
providers in insertion order `[A, B, C]` where `A` is usable with packages
and config ready but full service readiness failing (even though the target
method itself is implemented), and `B` is usable with no readiness errors
and a target method returning normally, the call returns `B`'s raw result
and the only provider whose method is ever invoked is `B` — in particular
`C` (whatever it is) is never tried. -/
theorem c7_try_first_short_circuit (env : Env) (cmd : String) (a b c : String)
    (A B C : Instance) (vB : PyVal) (iB : Bool)
    (hA1 : canBeUsedIsFalse A = false)
    (hA2 : (are_packages_installed env A).1 = true)
    (hA3 : (is_config_ready env A Option.none).1 = true)
    (hA4 : (are_services_implemented A).1 = false)
    (_hA5 : is_service_implemented A cmd = true)
    (hB1 : canBeUsedIsFalse B = false)
    (hB2 : tryFirstErrors env B = [])
    (hB3 : B.getAttr cmd = .callableFn iB (.ok vB)) :
    try_providers_first env cmd [(a, A), (b, B), (c, C)] Option.none
      = .ok (.value vB)
    ∧ tryFirstInvoked env cmd [(a, A), (b, B), (c, C)] Option.none = [b] := by
  have hAerr : (tryFirstErrors env A).isEmpty = false := by
    have hne := tryFirstErrors_ne_nil_of_services env A hA2 hA3 hA4
    cases hh : tryFirstErrors env A
    · exact absurd hh hne
    · rfl
  have h1 : (tryFirstLoop env cmd Option.none [(a, A), (b, B), (c, C)] [] [] []).1
      = some (.value vB) := by
    simp [tryFirstLoop, hA1, hAerr, hB1, hB2, hB3]
  have h4 : (tryFirstLoop env cmd Option.none [(a, A), (b, B), (c, C)] [] [] []).2.2.2
      = [b] := by
    simp [tryFirstLoop, hA1, hAerr, hB1, hB2, hB3]
  refine ⟨?_, ?_⟩
  · unfold try_providers_first
    rw [if_neg (by simp)]
    cases hl : tryFirstLoop env cmd Option.none [(a, A), (b, B), (c, C)] [] [] [] with
    | mk fst rest =>
      obtain ⟨r2, r3, r4⟩ := rest
      rw [hl] at h1
      simp only at h1
      subst h1
      rfl
  · unfold tryFirstInvoked
    exact h4

/-- Witness for C7 at three concrete providers. -/
theorem c7_witness :
    try_providers_first c7env "run" [("a", c7A), ("b", c7B), ("c", c7C)]
        Option.none = .ok (.value (.int 7))
    ∧ tryFirstInvoked c7env "run" [("a", c7A), ("b", c7B), ("c", c7C)]
        Option.none = ["b"] :=
  c7_try_first_short_circuit c7env "run" "a" "b" "c" c7A c7B c7C (.int 7) false
    rfl rfl rfl rfl rfl rfl rfl rfl

end ProviderKit
